import Mathlib

/-!
Shallow embedding of `telco_churn/model_deployment.py`.

The module orchestrates a model-promotion workflow: it selects an MLflow
experiment, scores the "staging" and "production" registry models on a
reference dataset, extracts a comparison metric for each from the
evaluator's output dictionary, and either promotes the staging candidate
to production (archiving prior production versions) or archives it.

Modelling choices:
* metric values are rationals (`ℚ`), standing for the totally ordered
  non-NaN doubles the Python code compares with `<=`, `<`, `>=`, `>`;
* the external collaborators (inference runner, evaluator, registry,
  tracking store) are an explicit environment `Env`; the registry is a
  list of model versions, each carrying a stage string;
* `run` is modelled as a function from the configuration and environment
  to an event trace, a final registry state and an `Except` result; the
  `with mlflow.start_run(...)` context manager is modelled by appending
  the run-closing event on every exit path of the body, which is exactly
  the guarantee Python's `with` statement provides.
-/

namespace ModelDeploymentSpec

/-- Errors the deployment run can raise, one per `raise`/failure site of the
Python code: missing experiment configuration, a failed inference call, a
missing metric key (Python `KeyError`), no version in the "staging" stage
(Python `IndexError` on `get_latest_versions(...)[0]`), and a rejected
registry transition. -/
inductive DeployError where
  | configError
  | inferenceError
  | metricNotFound
  | resolutionError
  | transitionError
  deriving DecidableEq, Repr

/-- The dataclass `ModelDeployment`: its configuration fields. In the Python
source `experiment_id` and `experiment_path` default to `None`; here they are
`Option`s. -/
structure ModelDeployment where
  model_registry_name : String
  reference_data : String
  label_col : String
  comparison_metric : String
  higher_is_better : Bool
  experiment_id : Option Int
  experiment_path : Option String
  deriving DecidableEq, Repr

/-- The experiment context chosen by `mlflow.set_experiment`: either by id or
by path (name). -/
inductive ExperimentSelection where
  | byId : Int → ExperimentSelection
  | byPath : String → ExperimentSelection
  deriving DecidableEq, Repr

/-- `_set_experiment`: use `experiment_id` if it is not `None`, else
`experiment_path` if it is not `None`, else raise a `RuntimeError`. -/
def _set_experiment (cfg : ModelDeployment) : Except DeployError ExperimentSelection :=
  match cfg.experiment_id with
  | some i => Except.ok (ExperimentSelection.byId i)
  | none =>
    match cfg.experiment_path with
    | some pa => Except.ok (ExperimentSelection.byPath pa)
    | none => Except.error DeployError.configError

/-- A registered model version: its version number and current stage label. -/
structure ModelVersion where
  version : Nat
  current_stage : String
  deriving DecidableEq, Repr

/-- The registry's state for the configured model name: the list of its
registered versions. -/
structure Registry where
  versions : List ModelVersion
  deriving DecidableEq, Repr

/-- A call to `MlflowClient.transition_model_version_stage`: model name,
version number, target stage, and the `archive_existing_versions` flag
(Python default `False` when omitted). -/
structure TransitionCall where
  name : String
  version : Nat
  stage : String
  archive_existing_versions : Bool
  deriving DecidableEq, Repr

/-- Effect of `transition_model_version_stage` on the registry: the addressed
version moves to the target stage; when `archive_existing_versions` is set,
every other version currently in the target stage is archived. -/
def transition_model_version_stage (reg : Registry) (c : TransitionCall) : Registry :=
  ⟨reg.versions.map (fun w =>
      if w.version = c.version then { w with current_stage := c.stage }
      else if c.archive_existing_versions && (w.current_stage == c.stage) then
        { w with current_stage := "archived" }
      else w)⟩

/-- `client.get_latest_versions(name=..., stages=['staging'])[0]`: the version
with the greatest version number among those currently in the "staging"
stage, if any. -/
def getLatestStagingVersion (reg : Registry) : Option ModelVersion :=
  (reg.versions.filter (fun v => v.current_stage == "staging")).argmax
    (fun v => v.version)

/-- The outcome of the four-way conditional of `_run_promotion_logic`.
`noTransition` is the fall-through of the Python `if`/`elif` chain, in which
neither branch fires and no registry call is made. -/
inductive Decision where
  | archiveStaging
  | promoteStaging
  | noTransition
  deriving DecidableEq, Repr

/-- The branch structure of `_run_promotion_logic` (lines 138-170), as a
function of the two metrics and the `higher_is_better` flag. -/
def promotionDecision (higher_is_better : Bool) (staging_eval_metric production_eval_metric : ℚ) :
    Decision :=
  if higher_is_better then
    if staging_eval_metric ≤ production_eval_metric then Decision.archiveStaging
    else if staging_eval_metric > production_eval_metric then Decision.promoteStaging
    else Decision.noTransition
  else
    if staging_eval_metric ≥ production_eval_metric then Decision.archiveStaging
    else if staging_eval_metric < production_eval_metric then Decision.promoteStaging
    else Decision.noTransition

/-- The archive call issued at lines 142-144 and 159-161:
`transition_model_version_stage(name, version, stage="archived")`, with
`archive_existing_versions` left at its default `False`. -/
def archiveTransition (cfg : ModelDeployment) (v : ModelVersion) : TransitionCall :=
  ⟨cfg.model_registry_name, v.version, "archived", false⟩

/-- The promote call issued at lines 150-153 and 167-170:
`transition_model_version_stage(name, version, stage="production",
archive_existing_versions=True)`. -/
def promoteTransition (cfg : ModelDeployment) (v : ModelVersion) : TransitionCall :=
  ⟨cfg.model_registry_name, v.version, "production", true⟩

/-- The registry calls each decision branch issues for the staging candidate
`v`. -/
def decisionCalls (cfg : ModelDeployment) (v : ModelVersion) : Decision → List TransitionCall
  | Decision.archiveStaging => [archiveTransition cfg v]
  | Decision.promoteStaging => [promoteTransition cfg v]
  | Decision.noTransition => []

/-- `_run_promotion_logic`: look up the latest "staging" version (indexing an
empty result list raises), then issue the registry calls dictated by the
metric comparison. -/
def _run_promotion_logic (cfg : ModelDeployment) (reg : Registry)
    (staging_eval_metric production_eval_metric : ℚ) :
    Except DeployError (List TransitionCall) :=
  match getLatestStagingVersion reg with
  | none => Except.error DeployError.resolutionError
  | some staging_model_version =>
      Except.ok (decisionCalls cfg staging_model_version
        (promotionDecision cfg.higher_is_better staging_eval_metric production_eval_metric))

/-- `_get_evaluation_metric`: ask the evaluator for the stage-prefixed metric
dictionary, then index it at `metric_prefix + metric`. The first component is
the dictionary passed to `mlflow.log_metrics` (logged before the lookup); the
second is the lookup result, a `KeyError` when the key is absent. -/
def _get_evaluation_metric (evaluate : String → List (String × ℚ)) (metric stage : String) :
    List (String × ℚ) × Except DeployError ℚ :=
  let pfx := stage ++ "_"
  let eval_dict := evaluate pfx
  (eval_dict,
    match eval_dict.lookup (pfx ++ metric) with
    | some v => Except.ok v
    | none => Except.error DeployError.metricNotFound)

/-- Observable steps of a run: experiment selection, opening of the tracking
run scope, a batch-inference call for a stage, a `log_metrics` call, a
registry stage-transition call, and the closing of the tracking run scope. -/
inductive Event where
  | setExperiment : ExperimentSelection → Event
  | startRun : String → Event
  | inference : String → Event
  | logMetrics : List (String × ℚ) → Event
  | transition : TransitionCall → Event
  | endRun : String → Event
  deriving DecidableEq, Repr

/-- The external world a run interacts with: the registry state, whether the
batch-inference call for a given stage succeeds, the evaluator's output
dictionary for a given metric prefix, and whether the registry accepts a
stage transition. -/
structure Env where
  registry : Registry
  inferenceOk : String → Bool
  evalDict : String → List (String × ℚ)
  transitionOk : Bool

/-- Issue a list of transition calls in order, stopping at the first failure;
a failed call leaves the registry unchanged. -/
def execTransitions (ok : Bool) (reg : Registry) :
    List TransitionCall → List Event × Registry × Except DeployError Unit
  | [] => ([], reg, Except.ok ())
  | c :: rest =>
      if ok then
        let r := execTransitions ok (transition_model_version_stage reg c) rest
        (Event.transition c :: r.1, r.2.1, r.2.2)
      else ([Event.transition c], reg, Except.error DeployError.transitionError)

/-- The body of the `with mlflow.start_run(...)` block of `run` (lines
191-210): staging inference, production inference, staging metric, production
metric, promotion logic. Each step's failure aborts the body with the
corresponding error, leaving the registry untouched. -/
def runBody (cfg : ModelDeployment) (env : Env) :
    List Event × Registry × Except DeployError Unit :=
  if env.inferenceOk "staging" = false then
    ([Event.inference "staging"], env.registry, Except.error DeployError.inferenceError)
  else if env.inferenceOk "production" = false then
    ([Event.inference "staging", Event.inference "production"], env.registry,
      Except.error DeployError.inferenceError)
  else
    let stagingEval := _get_evaluation_metric env.evalDict cfg.comparison_metric "staging"
    match stagingEval.2 with
    | Except.error e =>
        ([Event.inference "staging", Event.inference "production",
          Event.logMetrics stagingEval.1], env.registry, Except.error e)
    | Except.ok sMetric =>
      let prodEval := _get_evaluation_metric env.evalDict cfg.comparison_metric "production"
      match prodEval.2 with
      | Except.error e =>
          ([Event.inference "staging", Event.inference "production",
            Event.logMetrics stagingEval.1, Event.logMetrics prodEval.1],
            env.registry, Except.error e)
      | Except.ok pMetric =>
        let evts := [Event.inference "staging", Event.inference "production",
                     Event.logMetrics stagingEval.1, Event.logMetrics prodEval.1]
        match _run_promotion_logic cfg env.registry sMetric pMetric with
        | Except.error e => (evts, env.registry, Except.error e)
        | Except.ok calls =>
            let r := execTransitions env.transitionOk env.registry calls
            (evts ++ r.1, r.2.1, r.2.2)

/-- Result of a full run: the event trace, the final registry state, and the
run's outcome. -/
structure RunResult where
  trace : List Event
  registry : Registry
  result : Except DeployError Unit
  deriving Repr

/-- `run` (lines 172-210): set the experiment, then execute the comparison
body inside the tracking-run scope. When `_set_experiment` raises, nothing
else happens; otherwise the scope-closing event is appended on every exit
path of the body, successful or not, as Python's `with` statement does. -/
def run (cfg : ModelDeployment) (env : Env) : RunResult :=
  match _set_experiment cfg with
  | Except.error e => ⟨[], env.registry, Except.error e⟩
  | Except.ok sel =>
      let body := runBody cfg env
      ⟨Event.setExperiment sel :: Event.startRun "Model Comparison" ::
         (body.1 ++ [Event.endRun "Model Comparison"]), body.2.1, body.2.2⟩

/-- Recognizer for registry stage-transition events. -/
def isTransitionEvent : Event → Bool
  | Event.transition _ => true
  | _ => false

/-- Recognizer for `log_metrics` events. -/
def isLogMetricsEvent : Event → Bool
  | Event.logMetrics _ => true
  | _ => false

/-- Recognizer for the event opening the tracking-run scope. -/
def isStartRunEvent : Event → Bool
  | Event.startRun _ => true
  | _ => false

/-- Recognizer for the event closing the tracking-run scope. -/
def isEndRunEvent : Event → Bool
  | Event.endRun _ => true
  | _ => false

/-- Recognizer for batch-inference events. -/
def isInferenceEvent : Event → Bool
  | Event.inference _ => true
  | _ => false

/-- The events following the first transition event of a trace (the whole
trace having none yields `[]`). -/
def afterFirstTransition : List Event → List Event
  | [] => []
  | e :: rest => if isTransitionEvent e then rest else afterFirstTransition rest

/-! ### Helper lemmas -/

/-- The fall-through arm of the `if`/`elif` chain is unreachable: over a
total order, one of the two tested comparisons always holds. -/
lemma promotionDecision_ne_noTransition (b : Bool) (s p : ℚ) :
    promotionDecision b s p ≠ Decision.noTransition := by
  unfold promotionDecision
  split_ifs <;> simp_all

/-- `_set_experiment` only ever raises the missing-configuration error. -/
lemma set_experiment_error_cases (cfg : ModelDeployment) (e : DeployError)
    (h : _set_experiment cfg = Except.error e) : e = DeployError.configError := by
  unfold _set_experiment at h
  cases hid : cfg.experiment_id with
  | some i => rw [hid] at h; simp at h
  | none =>
    cases hpath : cfg.experiment_path with
    | some pa => rw [hid, hpath] at h; simp at h
    | none => rw [hid, hpath] at h; simpa using h.symm

/-- When neither experiment field is set, `_set_experiment` raises. -/
lemma set_experiment_none_none (cfg : ModelDeployment)
    (h : cfg.experiment_id = none) (h' : cfg.experiment_path = none) :
    _set_experiment cfg = Except.error DeployError.configError := by
  unfold _set_experiment
  rw [h, h']

/-- Case analysis of the body of the tracking-run scope: staging inference
fails; production inference fails; the staging metric key is missing; the
production metric key is missing; no version is in the "staging" stage; or
exactly one transition call is issued — the archive or the promote call for
the latest staging version — and it succeeds or fails. -/
lemma runBody_shape (cfg : ModelDeployment) (env : Env) :
    runBody cfg env = ⟨[Event.inference "staging"], env.registry,
        Except.error DeployError.inferenceError⟩
  ∨ runBody cfg env = ⟨[Event.inference "staging", Event.inference "production"],
        env.registry, Except.error DeployError.inferenceError⟩
  ∨ runBody cfg env = ⟨[Event.inference "staging", Event.inference "production",
        Event.logMetrics (env.evalDict ("staging" ++ "_"))], env.registry,
        Except.error DeployError.metricNotFound⟩
  ∨ runBody cfg env = ⟨[Event.inference "staging", Event.inference "production",
        Event.logMetrics (env.evalDict ("staging" ++ "_")),
        Event.logMetrics (env.evalDict ("production" ++ "_"))], env.registry,
        Except.error DeployError.metricNotFound⟩
  ∨ runBody cfg env = ⟨[Event.inference "staging", Event.inference "production",
        Event.logMetrics (env.evalDict ("staging" ++ "_")),
        Event.logMetrics (env.evalDict ("production" ++ "_"))], env.registry,
        Except.error DeployError.resolutionError⟩
  ∨ ∃ v c, getLatestStagingVersion env.registry = some v
      ∧ (c = archiveTransition cfg v ∨ c = promoteTransition cfg v)
      ∧ ((env.transitionOk = true ∧
            runBody cfg env = ⟨[Event.inference "staging", Event.inference "production",
              Event.logMetrics (env.evalDict ("staging" ++ "_")),
              Event.logMetrics (env.evalDict ("production" ++ "_")),
              Event.transition c],
              transition_model_version_stage env.registry c, Except.ok ()⟩)
         ∨ (env.transitionOk = false ∧
            runBody cfg env = ⟨[Event.inference "staging", Event.inference "production",
              Event.logMetrics (env.evalDict ("staging" ++ "_")),
              Event.logMetrics (env.evalDict ("production" ++ "_")),
              Event.transition c],
              env.registry, Except.error DeployError.transitionError⟩)) := by
  unfold runBody
  cases h1 : env.inferenceOk "staging" with
  | false => simp [h1]
  | true =>
  cases h2 : env.inferenceOk "production" with
  | false => simp [h1, h2]
  | true =>
  simp only [h1, h2, _get_evaluation_metric]
  cases hl1 : (env.evalDict ("staging" ++ "_")).lookup
      (("staging" ++ "_") ++ cfg.comparison_metric) with
  | none => simp [hl1]
  | some s =>
  simp only [hl1]
  cases hl2 : (env.evalDict ("production" ++ "_")).lookup
      (("production" ++ "_") ++ cfg.comparison_metric) with
  | none => simp [hl2]
  | some p =>
  simp only [hl2]
  unfold _run_promotion_logic
  cases hv : getLatestStagingVersion env.registry with
  | none => simp [hv]
  | some v =>
  simp only [hv]
  cases hd : promotionDecision cfg.higher_is_better s p with
  | noTransition => exact absurd hd (promotionDecision_ne_noTransition _ _ _)
  | archiveStaging =>
      cases ht : env.transitionOk with
      | true =>
          refine Or.inr (Or.inr (Or.inr (Or.inr (Or.inr
            ⟨v, archiveTransition cfg v, rfl, Or.inl rfl, Or.inl ⟨rfl, ?_⟩⟩))))
          simp [hd, decisionCalls, execTransitions, ht]
      | false =>
          refine Or.inr (Or.inr (Or.inr (Or.inr (Or.inr
            ⟨v, archiveTransition cfg v, rfl, Or.inl rfl, Or.inr ⟨rfl, ?_⟩⟩))))
          simp [hd, decisionCalls, execTransitions, ht]
  | promoteStaging =>
      cases ht : env.transitionOk with
      | true =>
          refine Or.inr (Or.inr (Or.inr (Or.inr (Or.inr
            ⟨v, promoteTransition cfg v, rfl, Or.inr rfl, Or.inl ⟨rfl, ?_⟩⟩))))
          simp [hd, decisionCalls, execTransitions, ht]
      | false =>
          refine Or.inr (Or.inr (Or.inr (Or.inr (Or.inr
            ⟨v, promoteTransition cfg v, rfl, Or.inr rfl, Or.inr ⟨rfl, ?_⟩⟩))))
          simp [hd, decisionCalls, execTransitions, ht]

/-- Case analysis of a full run: either experiment selection fails and
nothing at all happens, or the body runs inside the tracking scope, whose
closing event is appended on every exit path. -/
lemma run_shape (cfg : ModelDeployment) (env : Env) :
    (_set_experiment cfg = Except.error DeployError.configError
      ∧ run cfg env = ⟨[], env.registry, Except.error DeployError.configError⟩)
  ∨ ∃ sel, _set_experiment cfg = Except.ok sel ∧
      run cfg env = ⟨Event.setExperiment sel :: Event.startRun "Model Comparison" ::
        ((runBody cfg env).1 ++ [Event.endRun "Model Comparison"]),
        (runBody cfg env).2.1, (runBody cfg env).2.2⟩ := by
  unfold run
  cases hs : _set_experiment cfg with
  | error e =>
      have he := set_experiment_error_cases cfg e hs
      subst he
      exact Or.inl ⟨rfl, rfl⟩
  | ok sel => exact Or.inr ⟨sel, rfl, rfl⟩

/-! ### Claims about the promotion decision -/

/-- C1: the promotion decision follows the four-case policy: with
`higher_is_better = true`, `staging ≤ production` archives the candidate and
`staging > production` promotes it (archiving existing production versions);
with `higher_is_better = false`, `staging ≥ production` archives and
`staging < production` promotes; ties never promote for either flag value. -/
theorem c1_promotion_policy (cfg : ModelDeployment) (v : ModelVersion) (s p : ℚ) :
    (decisionCalls cfg v (promotionDecision true s p)
       = if s ≤ p then [archiveTransition cfg v] else [promoteTransition cfg v])
  ∧ (decisionCalls cfg v (promotionDecision false s p)
       = if p ≤ s then [archiveTransition cfg v] else [promoteTransition cfg v])
  ∧ (archiveTransition cfg v).stage = "archived"
  ∧ (promoteTransition cfg v).stage = "production"
  ∧ (promoteTransition cfg v).archive_existing_versions = true
  ∧ promotionDecision true p p = Decision.archiveStaging
  ∧ promotionDecision false p p = Decision.archiveStaging := by
  refine ⟨?_, ?_, rfl, rfl, rfl, ?_, ?_⟩
  · simp only [promotionDecision]
    split_ifs <;> simp_all [decisionCalls]
  · simp only [promotionDecision]
    split_ifs <;> simp_all [decisionCalls]
  · simp [promotionDecision]
  · simp [promotionDecision]

/-- C2: the promotion decision is total (always archive or promote),
deterministic, and a function of the triple (staging metric, production
metric, `higher_is_better`) alone: two configurations agreeing on the flag
but differing in every other field yield the same decision. -/
theorem c2_decision_total_deterministic (cfg cfg' : ModelDeployment) (s p : ℚ)
    (h : cfg.higher_is_better = cfg'.higher_is_better) :
    (promotionDecision cfg.higher_is_better s p = Decision.archiveStaging
      ∨ promotionDecision cfg.higher_is_better s p = Decision.promoteStaging)
  ∧ promotionDecision cfg.higher_is_better s p
      = promotionDecision cfg'.higher_is_better s p := by
  refine ⟨?_, by rw [h]⟩
  cases hd : promotionDecision cfg.higher_is_better s p with
  | archiveStaging => exact Or.inl rfl
  | promoteStaging => exact Or.inr rfl
  | noTransition => exact absurd hd (promotionDecision_ne_noTransition _ _ _)

/-- Witness for C2 at `higher_is_better = true`, metrics (1, 2), two
configurations differing in every field other than the flag. -/
theorem c2_decision_total_deterministic_witness :
    (promotionDecision true 1 2 = Decision.archiveStaging
      ∨ promotionDecision true 1 2 = Decision.promoteStaging)
  ∧ promotionDecision true 1 2 = promotionDecision true 1 2 :=
  c2_decision_total_deterministic
    ⟨"telco", "ref", "churn", "roc_auc", true, some 1, none⟩
    ⟨"other", "tbl", "label", "accuracy", true, none, some "exp"⟩ 1 2 rfl

/-! ### Claims about experiment selection -/

/-- C3: the tracking context is selected by `experiment_id` when non-null,
else by `experiment_path` when non-null; with both null the run fails with
the configuration error and its trace is empty, so the error precedes any
inference or other external call. -/
theorem c3_experiment_selection (cfg : ModelDeployment) (env : Env) (i : Int)
    (pa : String) :
    (cfg.experiment_id = some i →
       _set_experiment cfg = Except.ok (ExperimentSelection.byId i))
  ∧ (cfg.experiment_id = none → cfg.experiment_path = some pa →
       _set_experiment cfg = Except.ok (ExperimentSelection.byPath pa))
  ∧ (cfg.experiment_id = none → cfg.experiment_path = none →
       (run cfg env).result = Except.error DeployError.configError
       ∧ (run cfg env).trace = []) := by
  refine ⟨?_, ?_, ?_⟩
  · intro h; unfold _set_experiment; rw [h]
  · intro h h'; unfold _set_experiment; rw [h, h']
  · intro h h'
    unfold run
    rw [set_experiment_none_none cfg h h']
    exact ⟨rfl, rfl⟩

/-- Witness for C3: id-only, path-only and neither-set configurations. -/
theorem c3_experiment_selection_witness :
    _set_experiment ⟨"m", "d", "l", "acc", true, some 7, none⟩
      = Except.ok (ExperimentSelection.byId 7)
  ∧ _set_experiment ⟨"m", "d", "l", "acc", true, none, some "exp"⟩
      = Except.ok (ExperimentSelection.byPath "exp")
  ∧ (run ⟨"m", "d", "l", "acc", true, none, none⟩
        ⟨⟨[]⟩, fun _ => true, fun _ => [], true⟩).result
      = Except.error DeployError.configError
  ∧ (run ⟨"m", "d", "l", "acc", true, none, none⟩
        ⟨⟨[]⟩, fun _ => true, fun _ => [], true⟩).trace = [] :=
  ⟨(c3_experiment_selection ⟨"m", "d", "l", "acc", true, some 7, none⟩
      ⟨⟨[]⟩, fun _ => true, fun _ => [], true⟩ 7 "exp").1 rfl,
   (c3_experiment_selection ⟨"m", "d", "l", "acc", true, none, some "exp"⟩
      ⟨⟨[]⟩, fun _ => true, fun _ => [], true⟩ 7 "exp").2.1 rfl rfl,
   ((c3_experiment_selection ⟨"m", "d", "l", "acc", true, none, none⟩
      ⟨⟨[]⟩, fun _ => true, fun _ => [], true⟩ 7 "exp").2.2 rfl rfl).1,
   ((c3_experiment_selection ⟨"m", "d", "l", "acc", true, none, none⟩
      ⟨⟨[]⟩, fun _ => true, fun _ => [], true⟩ 7 "exp").2.2 rfl rfl).2⟩

/-- C10: when both `experiment_id` and `experiment_path` are set, no error is
raised: the id wins, and the path's value has no effect (two configurations
with the same id and different paths behave identically). -/
theorem c10_id_takes_precedence (cfg cfg' : ModelDeployment) (i : Int)
    (pa pa' : String)
    (h : cfg.experiment_id = some i) (hp : cfg.experiment_path = some pa)
    (h' : cfg'.experiment_id = some i) (hp' : cfg'.experiment_path = some pa') :
    _set_experiment cfg = Except.ok (ExperimentSelection.byId i)
  ∧ _set_experiment cfg = _set_experiment cfg' := by
  unfold _set_experiment
  rw [h, h']
  exact ⟨rfl, rfl⟩

/-- Witness for C10: both fields set, two different path values. -/
theorem c10_id_takes_precedence_witness :
    _set_experiment ⟨"m", "d", "l", "acc", true, some 5, some "pathA"⟩
      = Except.ok (ExperimentSelection.byId 5)
  ∧ _set_experiment ⟨"m", "d", "l", "acc", true, some 5, some "pathA"⟩
      = _set_experiment ⟨"m", "d", "l", "acc", true, some 5, some "pathB"⟩ :=
  c10_id_takes_precedence _ _ 5 "pathA" "pathB" rfl rfl rfl rfl

/-! ### Lemmas about the registry lookup and the run sequence -/

/-- The latest staging version is a staging version of the registry. -/
lemma latest_staging_spec (reg : Registry) (v : ModelVersion)
    (h : getLatestStagingVersion reg = some v) :
    v ∈ reg.versions ∧ v.current_stage = "staging" := by
  unfold getLatestStagingVersion at h
  have hmem : v ∈ reg.versions.filter (fun x => x.current_stage == "staging") :=
    List.argmax_mem h
  have hsplit := List.mem_filter.mp hmem
  exact ⟨hsplit.1, by simpa using hsplit.2⟩

/-- The latest staging version has the greatest version number among the
registry's staging versions. -/
lemma latest_staging_max (reg : Registry) (v w : ModelVersion)
    (h : getLatestStagingVersion reg = some v)
    (hw : w ∈ reg.versions) (hst : w.current_stage = "staging") :
    w.version ≤ v.version := by
  unfold getLatestStagingVersion at h
  exact List.le_of_mem_argmax (List.mem_filter.mpr ⟨hw, by simp [hst]⟩) h

/-- When experiment selection succeeds, a run is the body wrapped in the
scope-opening and scope-closing events. -/
lemma run_of_set_experiment_ok (cfg : ModelDeployment) (env : Env)
    (sel : ExperimentSelection) (hsel : _set_experiment cfg = Except.ok sel) :
    run cfg env = ⟨Event.setExperiment sel :: Event.startRun "Model Comparison" ::
      ((runBody cfg env).1 ++ [Event.endRun "Model Comparison"]),
      (runBody cfg env).2.1, (runBody cfg env).2.2⟩ := by
  unfold run
  rw [hsel]

/-- The body when the staging metric key is missing from the evaluator's
output: the staging dictionary is logged, then the lookup raises; no
promotion step runs. -/
lemma runBody_staging_metric_missing (cfg : ModelDeployment) (env : Env)
    (h1 : env.inferenceOk "staging" = true) (h2 : env.inferenceOk "production" = true)
    (hl1 : (env.evalDict "staging_").lookup
        ("staging_" ++ cfg.comparison_metric) = none) :
    runBody cfg env = ⟨[Event.inference "staging", Event.inference "production",
        Event.logMetrics (env.evalDict "staging_")], env.registry,
        Except.error DeployError.metricNotFound⟩ := by
  unfold runBody
  simp [h1, h2, _get_evaluation_metric, hl1]

/-- The body when both metrics are found but no version is in the "staging"
stage: the promotion step fails before issuing any transition. -/
lemma runBody_no_staging_version (cfg : ModelDeployment) (env : Env) (s p : ℚ)
    (h1 : env.inferenceOk "staging" = true) (h2 : env.inferenceOk "production" = true)
    (hl1 : (env.evalDict "staging_").lookup
        ("staging_" ++ cfg.comparison_metric) = some s)
    (hl2 : (env.evalDict "production_").lookup
        ("production_" ++ cfg.comparison_metric) = some p)
    (hv : getLatestStagingVersion env.registry = none) :
    runBody cfg env = ⟨[Event.inference "staging", Event.inference "production",
        Event.logMetrics (env.evalDict "staging_"),
        Event.logMetrics (env.evalDict "production_")], env.registry,
        Except.error DeployError.resolutionError⟩ := by
  unfold runBody
  simp [h1, h2, _get_evaluation_metric, hl1, hl2, _run_promotion_logic, hv]

/-! ### Claims about metric lookup and version resolution -/

/-- C4: the comparison metric is the evaluator-output value under the key
`stage + "_" + metric`; a mapping without that key yields the key-not-found
error, and a run hitting it attempts no promotion: no transition is issued
and the registry is unchanged. -/
theorem c4_metric_key_lookup (cfg : ModelDeployment) (env : Env)
    (sel : ExperimentSelection) (d : List (String × ℚ)) (metric stage : String)
    (x : ℚ) :
    (d.lookup ((stage ++ "_") ++ metric) = some x →
       (_get_evaluation_metric (fun _ => d) metric stage).2 = Except.ok x)
  ∧ (d.lookup ((stage ++ "_") ++ metric) = none →
       (_get_evaluation_metric (fun _ => d) metric stage).2
         = Except.error DeployError.metricNotFound)
  ∧ ((env.evalDict "staging_").lookup
        ("staging_" ++ cfg.comparison_metric) = none →
       env.inferenceOk "staging" = true → env.inferenceOk "production" = true →
       _set_experiment cfg = Except.ok sel →
       (run cfg env).result = Except.error DeployError.metricNotFound
       ∧ (run cfg env).trace.filter isTransitionEvent = []
       ∧ (run cfg env).registry = env.registry) := by
  refine ⟨?_, ?_, ?_⟩
  · intro h
    simp [_get_evaluation_metric, h]
  · intro h
    simp [_get_evaluation_metric, h]
  · intro hl1 h1 h2 hsel
    rw [run_of_set_experiment_ok cfg env sel hsel,
        runBody_staging_metric_missing cfg env h1 h2 hl1]
    exact ⟨rfl, by simp [isTransitionEvent], rfl⟩

/-- Witness for C4: a dictionary holding the key, one missing it, and a full
run against an evaluator output missing `staging_roc_auc`. -/
theorem c4_metric_key_lookup_witness :
    (_get_evaluation_metric (fun _ => [("staging_roc_auc", (1 : ℚ))])
        "roc_auc" "staging").2 = Except.ok 1
  ∧ (_get_evaluation_metric (fun _ => [("staging_accuracy", (1 : ℚ))])
        "roc_auc" "staging").2 = Except.error DeployError.metricNotFound
  ∧ (run ⟨"telco", "ref", "churn", "roc_auc", true, some 7, none⟩
        ⟨⟨[⟨1, "production"⟩, ⟨2, "staging"⟩]⟩, fun _ => true,
          fun pfx => [(pfx ++ "accuracy", (1 : ℚ))], true⟩).result
      = Except.error DeployError.metricNotFound
  ∧ (run ⟨"telco", "ref", "churn", "roc_auc", true, some 7, none⟩
        ⟨⟨[⟨1, "production"⟩, ⟨2, "staging"⟩]⟩, fun _ => true,
          fun pfx => [(pfx ++ "accuracy", (1 : ℚ))], true⟩).trace.filter
        isTransitionEvent = []
  ∧ (run ⟨"telco", "ref", "churn", "roc_auc", true, some 7, none⟩
        ⟨⟨[⟨1, "production"⟩, ⟨2, "staging"⟩]⟩, fun _ => true,
          fun pfx => [(pfx ++ "accuracy", (1 : ℚ))], true⟩).registry
      = ⟨[⟨1, "production"⟩, ⟨2, "staging"⟩]⟩ :=
  ⟨(c4_metric_key_lookup ⟨"telco", "ref", "churn", "roc_auc", true, some 7, none⟩
      ⟨⟨[]⟩, fun _ => true, fun _ => [], true⟩ (ExperimentSelection.byId 7)
      [("staging_roc_auc", (1 : ℚ))] "roc_auc" "staging" 1).1 (by decide),
   (c4_metric_key_lookup ⟨"telco", "ref", "churn", "roc_auc", true, some 7, none⟩
      ⟨⟨[]⟩, fun _ => true, fun _ => [], true⟩ (ExperimentSelection.byId 7)
      [("staging_accuracy", (1 : ℚ))] "roc_auc" "staging" 1).2.1 (by decide),
   ((c4_metric_key_lookup ⟨"telco", "ref", "churn", "roc_auc", true, some 7, none⟩
      ⟨⟨[⟨1, "production"⟩, ⟨2, "staging"⟩]⟩, fun _ => true,
        fun pfx => [(pfx ++ "accuracy", (1 : ℚ))], true⟩ (ExperimentSelection.byId 7)
      [] "roc_auc" "staging" 1).2.2 (by decide) rfl rfl rfl).1,
   ((c4_metric_key_lookup ⟨"telco", "ref", "churn", "roc_auc", true, some 7, none⟩
      ⟨⟨[⟨1, "production"⟩, ⟨2, "staging"⟩]⟩, fun _ => true,
        fun pfx => [(pfx ++ "accuracy", (1 : ℚ))], true⟩ (ExperimentSelection.byId 7)
      [] "roc_auc" "staging" 1).2.2 (by decide) rfl rfl rfl).2.1,
   ((c4_metric_key_lookup ⟨"telco", "ref", "churn", "roc_auc", true, some 7, none⟩
      ⟨⟨[⟨1, "production"⟩, ⟨2, "staging"⟩]⟩, fun _ => true,
        fun pfx => [(pfx ++ "accuracy", (1 : ℚ))], true⟩ (ExperimentSelection.byId 7)
      [] "roc_auc" "staging" 1).2.2 (by decide) rfl rfl rfl).2.2⟩

/-- C5: the version a registry transition acts upon is always the most
recent version currently in the "staging" stage: it belongs to the registry,
its stage is "staging", its version number dominates every staging version,
and any issued transition call carries exactly its version number; when no
staging version exists, a run reaching the promotion step fails with the
fatal lookup error and performs no transition. -/
theorem c5_latest_staging_acted_on (cfg : ModelDeployment) (env : Env)
    (sel : ExperimentSelection) (c : TransitionCall) (v : ModelVersion)
    (s p : ℚ) :
    (getLatestStagingVersion env.registry = some v →
       v ∈ env.registry.versions ∧ v.current_stage = "staging"
       ∧ env.registry.versions.all
           (fun w => !(w.current_stage == "staging")
             || decide (w.version ≤ v.version)) = true)
  ∧ (Event.transition c ∈ (run cfg env).trace →
       getLatestStagingVersion env.registry = some v → c.version = v.version)
  ∧ (getLatestStagingVersion env.registry = none →
       env.inferenceOk "staging" = true → env.inferenceOk "production" = true →
       (env.evalDict "staging_").lookup
           ("staging_" ++ cfg.comparison_metric) = some s →
       (env.evalDict "production_").lookup
           ("production_" ++ cfg.comparison_metric) = some p →
       _set_experiment cfg = Except.ok sel →
       (run cfg env).result = Except.error DeployError.resolutionError
       ∧ (run cfg env).trace.filter isTransitionEvent = []
       ∧ (run cfg env).registry = env.registry) := by
  refine ⟨?_, ?_, ?_⟩
  · intro h
    refine ⟨(latest_staging_spec _ _ h).1, (latest_staging_spec _ _ h).2, ?_⟩
    rw [List.all_eq_true]
    intro w hw
    cases hst : (w.current_stage == "staging") with
    | false => simp
    | true =>
        simp only [Bool.not_true, Bool.false_or, decide_eq_true_eq]
        exact latest_staging_max env.registry v w h hw (by simpa using hst)
  · intro hmem hv
    rcases run_shape cfg env with ⟨_, hrun⟩ | ⟨sel', _, hrun⟩
    · rw [hrun] at hmem
      simp at hmem
    · rw [hrun] at hmem
      simp only [List.mem_cons, List.mem_append, List.mem_singleton] at hmem
      rcases hmem with h | h | h | h
      · exact absurd h (by simp)
      · exact absurd h (by simp)
      · rcases runBody_shape cfg env with hb | hb | hb | hb | hb |
          ⟨v', c', hv', hform, ⟨_, hb⟩ | ⟨_, hb⟩⟩ <;>
          rw [hb] at h <;> simp at h
        all_goals {
          rw [hv] at hv'
          cases hv'
          rcases hform with rfl | rfl <;> rw [h] <;> rfl
        }
      · exact absurd h (by simp)
  · intro hv h1 h2 hl1 hl2 hsel
    rw [run_of_set_experiment_ok cfg env sel hsel,
        runBody_no_staging_version cfg env s p h1 h2 hl1 hl2 hv]
    exact ⟨rfl, by simp [isTransitionEvent], rfl⟩

/-- Witness for C5: a registry with staging versions 2 and 3 and production
version 1 — the candidate acted on is version 3; and a registry with no
staging version, against which a full run fails with the lookup error. -/
theorem c5_latest_staging_acted_on_witness :
    ((⟨3, "staging"⟩ : ModelVersion) ∈
        (⟨[⟨1, "production"⟩, ⟨2, "staging"⟩, ⟨3, "staging"⟩]⟩ : Registry).versions
      ∧ (⟨3, "staging"⟩ : ModelVersion).current_stage = "staging"
      ∧ (⟨[⟨1, "production"⟩, ⟨2, "staging"⟩, ⟨3, "staging"⟩]⟩ : Registry).versions.all
          (fun w => !(w.current_stage == "staging")
            || decide (w.version ≤ (⟨3, "staging"⟩ : ModelVersion).version)) = true)
  ∧ (archiveTransition ⟨"telco", "ref", "churn", "roc_auc", true, some 7, none⟩
        ⟨3, "staging"⟩).version = (⟨3, "staging"⟩ : ModelVersion).version
  ∧ ((run ⟨"telco", "ref", "churn", "roc_auc", true, some 7, none⟩
        ⟨⟨[⟨1, "production"⟩, ⟨4, "archived"⟩]⟩, fun _ => true,
          fun pfx => [(pfx ++ "roc_auc", (1 : ℚ))], true⟩).result
      = Except.error DeployError.resolutionError
      ∧ (run ⟨"telco", "ref", "churn", "roc_auc", true, some 7, none⟩
          ⟨⟨[⟨1, "production"⟩, ⟨4, "archived"⟩]⟩, fun _ => true,
            fun pfx => [(pfx ++ "roc_auc", (1 : ℚ))], true⟩).trace.filter
          isTransitionEvent = []
      ∧ (run ⟨"telco", "ref", "churn", "roc_auc", true, some 7, none⟩
          ⟨⟨[⟨1, "production"⟩, ⟨4, "archived"⟩]⟩, fun _ => true,
            fun pfx => [(pfx ++ "roc_auc", (1 : ℚ))], true⟩).registry
        = ⟨[⟨1, "production"⟩, ⟨4, "archived"⟩]⟩) :=
  ⟨(c5_latest_staging_acted_on ⟨"telco", "ref", "churn", "roc_auc", true, some 7, none⟩
      ⟨⟨[⟨1, "production"⟩, ⟨2, "staging"⟩, ⟨3, "staging"⟩]⟩, fun _ => true,
        fun pfx => [(pfx ++ "roc_auc", (1 : ℚ))], true⟩ (ExperimentSelection.byId 7)
      (archiveTransition ⟨"telco", "ref", "churn", "roc_auc", true, some 7, none⟩
        ⟨3, "staging"⟩) ⟨3, "staging"⟩ 1 1).1 (by decide),
   (c5_latest_staging_acted_on ⟨"telco", "ref", "churn", "roc_auc", true, some 7, none⟩
      ⟨⟨[⟨1, "production"⟩, ⟨2, "staging"⟩, ⟨3, "staging"⟩]⟩, fun _ => true,
        fun pfx => [(pfx ++ "roc_auc", (1 : ℚ))], true⟩ (ExperimentSelection.byId 7)
      (archiveTransition ⟨"telco", "ref", "churn", "roc_auc", true, some 7, none⟩
        ⟨3, "staging"⟩) ⟨3, "staging"⟩ 1 1).2.1 (by decide) (by decide),
   (c5_latest_staging_acted_on ⟨"telco", "ref", "churn", "roc_auc", true, some 7, none⟩
      ⟨⟨[⟨1, "production"⟩, ⟨4, "archived"⟩]⟩, fun _ => true,
        fun pfx => [(pfx ++ "roc_auc", (1 : ℚ))], true⟩ (ExperimentSelection.byId 7)
      (archiveTransition ⟨"telco", "ref", "churn", "roc_auc", true, some 7, none⟩
        ⟨3, "staging"⟩) ⟨3, "staging"⟩ 1 1).2.2 (by decide) rfl rfl (by decide)
      (by decide) rfl⟩

/-! ### Temporal claims about the run sequence -/

/-- C6: in every run the registry stage-transition call is issued at most
once; every event after the first transition is the scope-closing event, so
no workflow step follows the transition; and a run that issues a transition
has logged both metric dictionaries before it. -/
theorem c6_transition_once_after_metrics_last (cfg : ModelDeployment) (env : Env) :
    ((run cfg env).trace.filter isTransitionEvent).length ≤ 1
  ∧ (afterFirstTransition (run cfg env).trace).all isEndRunEvent = true
  ∧ ((run cfg env).trace.any isTransitionEvent = true →
      (((run cfg env).trace.takeWhile (fun e => ! isTransitionEvent e)).filter
          isLogMetricsEvent).length = 2) := by
  rcases run_shape cfg env with ⟨_, hrun⟩ | ⟨sel, _, hrun⟩
  · rw [hrun]
    exact ⟨by simp, by simp [afterFirstTransition], by simp⟩
  · rw [hrun]
    rcases runBody_shape cfg env with hb | hb | hb | hb | hb |
        ⟨v, c, hv, hform, ⟨_, hb⟩ | ⟨_, hb⟩⟩ <;> rw [hb] <;>
      exact ⟨by simp [isTransitionEvent],
        by simp [afterFirstTransition, isTransitionEvent, isEndRunEvent],
        by simp [isTransitionEvent, isLogMetricsEvent]⟩

/-- Witness for C6: a promoting run; the transition is present, preceded by
exactly the two metric-logging calls and followed only by the scope close. -/
theorem c6_transition_once_after_metrics_last_witness :
    ((run ⟨"telco", "ref", "churn", "roc_auc", true, some 7, none⟩
        ⟨⟨[⟨1, "production"⟩, ⟨2, "staging"⟩]⟩, fun _ => true,
          fun pfx => [(pfx ++ "roc_auc",
            if pfx == "staging_" then (2 : ℚ) else 1)], true⟩).trace.filter
        isTransitionEvent).length ≤ 1
  ∧ (afterFirstTransition (run ⟨"telco", "ref", "churn", "roc_auc", true, some 7, none⟩
        ⟨⟨[⟨1, "production"⟩, ⟨2, "staging"⟩]⟩, fun _ => true,
          fun pfx => [(pfx ++ "roc_auc",
            if pfx == "staging_" then (2 : ℚ) else 1)], true⟩).trace).all
        isEndRunEvent = true
  ∧ (((run ⟨"telco", "ref", "churn", "roc_auc", true, some 7, none⟩
        ⟨⟨[⟨1, "production"⟩, ⟨2, "staging"⟩]⟩, fun _ => true,
          fun pfx => [(pfx ++ "roc_auc",
            if pfx == "staging_" then (2 : ℚ) else 1)], true⟩).trace.takeWhile
        (fun e => ! isTransitionEvent e)).filter isLogMetricsEvent).length = 2 :=
  ⟨(c6_transition_once_after_metrics_last _ _).1,
   (c6_transition_once_after_metrics_last _ _).2.1,
   (c6_transition_once_after_metrics_last ⟨"telco", "ref", "churn", "roc_auc", true, some 7, none⟩
      ⟨⟨[⟨1, "production"⟩, ⟨2, "staging"⟩]⟩, fun _ => true,
        fun pfx => [(pfx ++ "roc_auc",
          if pfx == "staging_" then (2 : ℚ) else 1)], true⟩).2.2 (by decide)⟩

/-- C8: every run either fails before opening the tracking-run scope (the
configuration error, with an empty trace) or opens it; once opened, the
scope-closing event is the last event of the trace on every exit path,
success or failure, so the scope is closed before any error propagates. -/
theorem c8_scope_closed_on_all_paths (cfg : ModelDeployment) (env : Env) :
    ((run cfg env).trace.any isStartRunEvent = true →
       (run cfg env).trace.getLast? = some (Event.endRun "Model Comparison"))
  ∧ (_set_experiment cfg = Except.error DeployError.configError
       ∨ (run cfg env).trace.any isStartRunEvent = true) := by
  rcases run_shape cfg env with ⟨hse, hrun⟩ | ⟨sel, _, hrun⟩
  · rw [hrun]
    exact ⟨by intro h; simp at h, Or.inl hse⟩
  · rw [hrun]
    constructor
    · intro _
      have hconcat : (Event.setExperiment sel :: Event.startRun "Model Comparison" ::
          ((runBody cfg env).1 ++ [Event.endRun "Model Comparison"])) =
          ((Event.setExperiment sel :: Event.startRun "Model Comparison" ::
            (runBody cfg env).1) ++ [Event.endRun "Model Comparison"]) := by simp
      rw [hconcat, List.getLast?_concat]
    · exact Or.inr (by simp [isStartRunEvent])

/-- Witness for C8: a run that fails with the metric-key error still closes
the scope as its last event. -/
theorem c8_scope_closed_on_all_paths_witness :
    (run ⟨"telco", "ref", "churn", "roc_auc", true, some 7, none⟩
        ⟨⟨[⟨1, "production"⟩, ⟨2, "staging"⟩]⟩, fun _ => true,
          fun pfx => [(pfx ++ "accuracy", (1 : ℚ))], true⟩).trace.getLast?
      = some (Event.endRun "Model Comparison")
  ∧ (_set_experiment ⟨"telco", "ref", "churn", "roc_auc", true, some 7, none⟩
        = Except.error DeployError.configError
     ∨ (run ⟨"telco", "ref", "churn", "roc_auc", true, some 7, none⟩
          ⟨⟨[⟨1, "production"⟩, ⟨2, "staging"⟩]⟩, fun _ => true,
            fun pfx => [(pfx ++ "accuracy", (1 : ℚ))], true⟩).trace.any
          isStartRunEvent = true) :=
  ⟨(c8_scope_closed_on_all_paths ⟨"telco", "ref", "churn", "roc_auc", true, some 7, none⟩
      ⟨⟨[⟨1, "production"⟩, ⟨2, "staging"⟩]⟩, fun _ => true,
        fun pfx => [(pfx ++ "accuracy", (1 : ℚ))], true⟩).1 (by decide),
   (c8_scope_closed_on_all_paths _ _).2⟩

/-- Every version of the registry after a transition call comes from a
version of the registry before it, transformed by the call's per-version
update. -/
lemma mem_transition_versions (reg : Registry) (c : TransitionCall) (w : ModelVersion)
    (hw : w ∈ (transition_model_version_stage reg c).versions) :
    ∃ w0, w0 ∈ reg.versions ∧
      w = (if w0.version = c.version then { w0 with current_stage := c.stage }
        else if c.archive_existing_versions && (w0.current_stage == c.stage) then
          { w0 with current_stage := "archived" }
        else w0) := by
  simp only [transition_model_version_stage, List.mem_map] at hw
  rcases hw with ⟨w0, hw0, hmap⟩
  exact ⟨w0, hw0, hmap.symm⟩

/-- C7: across one run (over a registry with distinct version numbers, as
the registry guarantees), at most one transition call is issued, and each
final version either kept its stage or moved staging → archived,
staging → production, or production → archived; in particular no version is
ever moved into "staging", and the candidate cannot be both archived and
promoted in the same run. -/
theorem c7_reachable_stage_transitions (cfg : ModelDeployment) (env : Env)
    (w : ModelVersion)
    (hnodup : (env.registry.versions.map ModelVersion.version).Nodup)
    (hw : w ∈ (run cfg env).registry.versions) :
    ((run cfg env).trace.filter isTransitionEvent).length ≤ 1
  ∧ ∃ w0, w0 ∈ env.registry.versions ∧ w0.version = w.version
      ∧ (w.current_stage = w0.current_stage
         ∨ (w0.current_stage = "staging" ∧ w.current_stage = "archived")
         ∨ (w0.current_stage = "staging" ∧ w.current_stage = "production")
         ∨ (w0.current_stage = "production" ∧ w.current_stage = "archived"))
      ∧ (w.current_stage = "staging" → w0.current_stage = "staging") := by
  rcases run_shape cfg env with ⟨_, hrun⟩ | ⟨sel, _, hrun⟩
  · rw [hrun] at hw ⊢
    exact ⟨by simp, w, hw, rfl, Or.inl rfl, fun h => h⟩
  · rw [hrun] at hw ⊢
    rcases runBody_shape cfg env with hb | hb | hb | hb | hb |
        ⟨v, c, hv, hform, ⟨_, hb⟩ | ⟨_, hb⟩⟩
    case inr.inr.intro.intro.intro.intro.inl.intro =>
      rw [hb] at hw ⊢
      refine ⟨by simp [isTransitionEvent], ?_⟩
      obtain ⟨w0, hw0, hform0⟩ := mem_transition_versions _ _ _ hw
      have hvmem := (latest_staging_spec env.registry v hv).1
      have hvstage := (latest_staging_spec env.registry v hv).2
      rcases hform with rfl | rfl
      · by_cases hver : w0.version = (archiveTransition cfg v).version
        · have hw0v : w0 = v :=
            List.inj_on_of_nodup_map hnodup hw0 hvmem
              (by simpa [archiveTransition] using hver)
          rw [if_pos hver] at hform0
          refine ⟨w0, hw0, by rw [hform0], ?_, ?_⟩
          · exact Or.inr (Or.inl ⟨hw0v ▸ hvstage, by simp [hform0, archiveTransition]⟩)
          · intro _
            exact hw0v ▸ hvstage
        · rw [if_neg hver, if_neg (by simp [archiveTransition])] at hform0
          exact ⟨w0, hw0, by rw [hform0], Or.inl (by rw [hform0]), fun h => hform0 ▸ h⟩
      · by_cases hver : w0.version = (promoteTransition cfg v).version
        · have hw0v : w0 = v :=
            List.inj_on_of_nodup_map hnodup hw0 hvmem
              (by simpa [promoteTransition] using hver)
          rw [if_pos hver] at hform0
          refine ⟨w0, hw0, by rw [hform0], ?_, ?_⟩
          · exact Or.inr (Or.inr (Or.inl ⟨hw0v ▸ hvstage,
              by simp [hform0, promoteTransition]⟩))
          · intro _
            exact hw0v ▸ hvstage
        · rw [if_neg hver] at hform0
          by_cases hprod : (w0.current_stage == (promoteTransition cfg v).stage) = true
          · rw [if_pos (by simpa [promoteTransition] using hprod)] at hform0
            refine ⟨w0, hw0, by rw [hform0], ?_, ?_⟩
            · exact Or.inr (Or.inr (Or.inr ⟨by simpa [promoteTransition] using hprod,
                by simp [hform0]⟩))
            · intro h
              rw [hform0] at h
              simp at h
          · rw [if_neg (by simpa [promoteTransition] using hprod)] at hform0
            exact ⟨w0, hw0, by rw [hform0], Or.inl (by rw [hform0]), fun h => hform0 ▸ h⟩
    all_goals {
      rw [hb] at hw ⊢
      exact ⟨by simp [isTransitionEvent], w, hw, rfl, Or.inl rfl, fun h => h⟩
    }

/-- Witness for C7: a promoting run over a registry with distinct version
numbers; the prior production version (now archived) is in the final
registry and satisfies the transition characterization. -/
theorem c7_reachable_stage_transitions_witness :
    ((⟨[⟨1, "production"⟩, ⟨2, "staging"⟩]⟩ : Registry).versions.map
        ModelVersion.version).Nodup
  ∧ (⟨1, "archived"⟩ : ModelVersion) ∈
      (run ⟨"telco", "ref", "churn", "roc_auc", true, some 7, none⟩
        ⟨⟨[⟨1, "production"⟩, ⟨2, "staging"⟩]⟩, fun _ => true,
          fun pfx => [(pfx ++ "roc_auc",
            if pfx == "staging_" then (2 : ℚ) else 1)], true⟩).registry.versions
  ∧ (((run ⟨"telco", "ref", "churn", "roc_auc", true, some 7, none⟩
        ⟨⟨[⟨1, "production"⟩, ⟨2, "staging"⟩]⟩, fun _ => true,
          fun pfx => [(pfx ++ "roc_auc",
            if pfx == "staging_" then (2 : ℚ) else 1)], true⟩).trace.filter
        isTransitionEvent).length ≤ 1
     ∧ ∃ w0, w0 ∈ (⟨[⟨1, "production"⟩, ⟨2, "staging"⟩]⟩ : Registry).versions
        ∧ w0.version = (⟨1, "archived"⟩ : ModelVersion).version
        ∧ ((⟨1, "archived"⟩ : ModelVersion).current_stage = w0.current_stage
           ∨ (w0.current_stage = "staging"
              ∧ (⟨1, "archived"⟩ : ModelVersion).current_stage = "archived")
           ∨ (w0.current_stage = "staging"
              ∧ (⟨1, "archived"⟩ : ModelVersion).current_stage = "production")
           ∨ (w0.current_stage = "production"
              ∧ (⟨1, "archived"⟩ : ModelVersion).current_stage = "archived"))
        ∧ ((⟨1, "archived"⟩ : ModelVersion).current_stage = "staging" →
            w0.current_stage = "staging")) :=
  ⟨by decide, by decide,
   c7_reachable_stage_transitions ⟨"telco", "ref", "churn", "roc_auc", true, some 7, none⟩
     ⟨⟨[⟨1, "production"⟩, ⟨2, "staging"⟩]⟩, fun _ => true,
       fun pfx => [(pfx ++ "roc_auc",
         if pfx == "staging_" then (2 : ℚ) else 1)], true⟩ ⟨1, "archived"⟩
     (by decide) (by decide)⟩

/-- C9: when the decision is to archive the staging candidate, the single
issued call targets that version with stage "archived" and
`archive_existing_versions = False`, so applying it leaves every version
with a different version number (the current production version included)
exactly as it was; only the promote call requests archiving of existing
versions. -/
theorem c9_archive_frame_effect (cfg : ModelDeployment) (reg : Registry)
    (s p : ℚ) (v w : ModelVersion)
    (hv : getLatestStagingVersion reg = some v)
    (harch : promotionDecision cfg.higher_is_better s p = Decision.archiveStaging)
    (hw : w ∈ reg.versions) (hne : w.version ≠ v.version) :
    _run_promotion_logic cfg reg s p = Except.ok [archiveTransition cfg v]
  ∧ (archiveTransition cfg v).archive_existing_versions = false
  ∧ (archiveTransition cfg v).stage = "archived"
  ∧ w ∈ (transition_model_version_stage reg (archiveTransition cfg v)).versions
  ∧ (promoteTransition cfg v).archive_existing_versions = true := by
  refine ⟨?_, rfl, rfl, ?_, rfl⟩
  · unfold _run_promotion_logic
    rw [hv, harch]
    rfl
  · exact List.mem_map.mpr ⟨w, hw, by simp [archiveTransition, hne]⟩

/-- Witness for C9: a tie archives staging version 2; production version 1
is untouched by the archive call. -/
theorem c9_archive_frame_effect_witness :
    _run_promotion_logic ⟨"telco", "ref", "churn", "roc_auc", true, some 7, none⟩
        ⟨[⟨1, "production"⟩, ⟨2, "staging"⟩]⟩ 1 1
      = Except.ok [archiveTransition ⟨"telco", "ref", "churn", "roc_auc", true, some 7, none⟩
          ⟨2, "staging"⟩]
  ∧ (archiveTransition ⟨"telco", "ref", "churn", "roc_auc", true, some 7, none⟩
        ⟨2, "staging"⟩).archive_existing_versions = false
  ∧ (archiveTransition ⟨"telco", "ref", "churn", "roc_auc", true, some 7, none⟩
        ⟨2, "staging"⟩).stage = "archived"
  ∧ (⟨1, "production"⟩ : ModelVersion) ∈
      (transition_model_version_stage ⟨[⟨1, "production"⟩, ⟨2, "staging"⟩]⟩
        (archiveTransition ⟨"telco", "ref", "churn", "roc_auc", true, some 7, none⟩
          ⟨2, "staging"⟩)).versions
  ∧ (promoteTransition ⟨"telco", "ref", "churn", "roc_auc", true, some 7, none⟩
        ⟨2, "staging"⟩).archive_existing_versions = true :=
  c9_archive_frame_effect ⟨"telco", "ref", "churn", "roc_auc", true, some 7, none⟩
    ⟨[⟨1, "production"⟩, ⟨2, "staging"⟩]⟩ 1 1 ⟨2, "staging"⟩ ⟨1, "production"⟩
    (by decide) (by decide) (by decide) (by decide)

end ModelDeploymentSpec
